import Mathlib

/-!
Verification of the `rawdog_osgood` Python client
(`src/rawdog_osgood/client.py`) against its specification.

The development shallowly embeds the module: bytes are `List Nat` (each
element a byte value), Python `dict`s are association lists, raised
exceptions are the `Except.error` branch, and a socket's inbound byte
stream is the list of chunks successive `socket.recv` calls deliver.
-/

namespace Rawdog

/-! ## Big-endian byte packing (model of `struct.pack`/`struct.unpack` with `">HQ"`) -/

/-- Pack `n` into `w` big-endian bytes, as `struct.pack` does for
fixed-width unsigned fields. -/
def packBE : Nat → Nat → List Nat
  | 0, _ => []
  | w + 1, n => packBE w (n / 256) ++ [n % 256]

/-- Read a big-endian byte list back as a natural number, as
`struct.unpack` does. -/
def decodeBE (bs : List Nat) : Nat :=
  bs.foldl (fun acc b => acc * 256 + b) 0

lemma length_packBE (w n : Nat) : (packBE w n).length = w := by
  induction w generalizing n with
  | zero => rfl
  | succ w ih => simp [packBE, ih]

lemma decodeBE_append_singleton (xs : List Nat) (b : Nat) :
    decodeBE (xs ++ [b]) = decodeBE xs * 256 + b := by
  simp [decodeBE, List.foldl_append]

lemma decodeBE_packBE (w n : Nat) : decodeBE (packBE w n) = n % 256 ^ w := by
  induction w generalizing n with
  | zero => simp [packBE, decodeBE, Nat.mod_one]
  | succ w ih =>
    rw [packBE, decodeBE_append_singleton, ih]
    have h256 : 256 ^ (w + 1) = 256 * 256 ^ w := by
      rw [pow_succ, Nat.mul_comm]
    rw [h256, Nat.mod_mul]
    ring

lemma decodeBE_packBE_of_lt {w n : Nat} (h : n < 256 ^ w) :
    decodeBE (packBE w n) = n := by
  rw [decodeBE_packBE, Nat.mod_eq_of_lt h]

lemma take_len_append {α : Type} (l₁ l₂ : List α) (n : Nat) (h : l₁.length = n) :
    (l₁ ++ l₂).take n = l₁ := by
  subst h
  simp

lemma drop_len_append {α : Type} (l₁ l₂ : List α) (n : Nat) (h : l₁.length = n) :
    (l₁ ++ l₂).drop n = l₂ := by
  subst h
  simp

/-! ## Model of Python `str.encode("utf-8")` -/

/-- Standard UTF-8 encoding of one Unicode code point. -/
def utf8Char (ch : Char) : List Nat :=
  let n := ch.toNat
  if n < 128 then [n]
  else if n < 2048 then [192 + n / 64, 128 + n % 64]
  else if n < 65536 then [224 + n / 4096, 128 + n / 64 % 64, 128 + n % 64]
  else [240 + n / 262144, 128 + n / 4096 % 64, 128 + n / 64 % 64, 128 + n % 64]

/-- Model of `s.encode("utf-8")` (`DEFAULT_ENCODING` in the source). -/
def utf8Encode (s : String) : List Nat :=
  s.data.flatMap utf8Char

lemma string_data_append (a b : String) : (a ++ b).data = a.data ++ b.data := by
  cases a
  cases b
  rfl

lemma utf8Encode_append (a b : String) :
    utf8Encode (a ++ b) = utf8Encode a ++ utf8Encode b := by
  simp [utf8Encode, string_data_append]

/-! ## Model of Python `json.dumps` (default options: `ensure_ascii=True`,
separators `", "` and `": "`, keys in insertion order) -/

/-- JSON-serializable values appearing in the metadata mappings this
client builds: strings and integers. -/
inductive JVal where
  | s (v : String)
  | i (v : Int)
deriving DecidableEq, Repr

def lbrace : Char := Char.ofNat 123

def rbrace : Char := Char.ofNat 125

def hexDigit (n : Nat) : Char := "0123456789abcdef".data.getD n "0".data.head!

def hex4 (n : Nat) : String :=
  String.mk [hexDigit (n / 4096 % 16), hexDigit (n / 256 % 16),
    hexDigit (n / 16 % 16), hexDigit (n % 16)]

/-- Escaping performed by `json.dumps` with `ensure_ascii=True`: special
short escapes, `\uXXXX` for other characters outside `0x20`-`0x7e`
(surrogate pairs above the BMP), everything else literal. -/
def jsonEscapeChar (ch : Char) : String :=
  if ch = Char.ofNat 34 then "\\\""
  else if ch = Char.ofNat 92 then "\\\\"
  else if ch = Char.ofNat 10 then "\\n"
  else if ch = Char.ofNat 9 then "\\t"
  else if ch = Char.ofNat 13 then "\\r"
  else if ch = Char.ofNat 8 then "\\b"
  else if ch = Char.ofNat 12 then "\\f"
  else if ch.toNat < 32 ∨ 126 < ch.toNat then
    if ch.toNat < 65536 then "\\u" ++ hex4 ch.toNat
    else
      "\\u" ++ hex4 (55296 + (ch.toNat - 65536) / 1024) ++
        "\\u" ++ hex4 (56320 + (ch.toNat - 65536) % 1024)
  else String.singleton ch

/-- JSON string literal: quoted, escaped. -/
def jsonStr (s : String) : String :=
  "\"" ++ String.join (s.data.map jsonEscapeChar) ++ "\""

def jsonVal : JVal → String
  | .s v => jsonStr v
  | .i v => toString v

/-- Model of `json.dumps` on a flat JSON object, rendered with the
default separators and the mapping order preserved. -/
def jsonDumps (d : List (String × JVal)) : String :=
  String.singleton lbrace ++
    String.intercalate ", " (d.map fun kv => jsonStr kv.1 ++ ": " ++ jsonVal kv.2) ++
    String.singleton rbrace

lemma utf8Encode_singleton_lbrace : utf8Encode (String.singleton lbrace) = [123] := by
  decide

lemma one_le_length_utf8_jsonDumps (d : List (String × JVal)) :
    1 ≤ (utf8Encode (jsonDumps d)).length := by
  rw [jsonDumps, utf8Encode_append, utf8Encode_append, utf8Encode_singleton_lbrace]
  simp

/-! ## Model of Python `base64.b64encode` (standard alphabet, padded) -/

/-- Byte value of the base64 alphabet character at a given index. -/
def b64Byte (n : Nat) : Nat :=
  (("ABCDEFGHIJKLMNOPQRSTUVWXYZabcdefghijklmnopqrstuvwxyz0123456789+/").data.map
    Char.toNat).getD n 0

/-- Model of `base64.b64encode` on a byte list: 3-byte groups become 4
alphabet bytes, with `=` (byte 61) padding for the final partial group. -/
def b64encode : List Nat → List Nat
  | [] => []
  | [a] => [b64Byte (a / 4), b64Byte (a % 4 * 16), 61, 61]
  | [a, b] => [b64Byte (a / 4), b64Byte (a % 4 * 16 + b / 16), b64Byte (b % 16 * 4), 61]
  | a :: b :: c :: rest =>
    b64Byte (a / 4) :: b64Byte (a % 4 * 16 + b / 16) ::
      b64Byte (b % 16 * 4 + c / 64) :: b64Byte (c % 64) :: b64encode rest

lemma b64encode_ne_nil {P : List Nat} (h : P ≠ []) : b64encode P ≠ [] := by
  match P with
  | [] => exact absurd rfl h
  | [a] => simp [b64encode]
  | [a, b] => simp [b64encode]
  | a :: b :: c :: rest => simp [b64encode]

/-! ## Python runtime model: values and exceptions -/

/-- Exceptions the embedded code can raise. `structError` stands for
`struct.error`, the rest for the built-in exception classes of the same
names. `connectionError` stands for an arbitrary socket-layer failure
(connect/send/timeout) injected by the environment. -/
inductive PyErr where
  | typeError (msg : String)
  | valueError (msg : String)
  | structError (msg : String)
  | attributeError (msg : String)
  | connectionError (msg : String)
deriving DecidableEq, Repr

/-- Dynamically typed Python argument values, as far as the client's
`isinstance` checks distinguish them. -/
inductive PyVal where
  | int (v : Int)
  | str (v : String)
  | bytes (b : List Nat)
  | noneV
deriving DecidableEq, Repr

/-- Rendering of `type(x)` used in the error messages. -/
def pyTypeName : PyVal → String
  | .int _ => "<class int>"
  | .str _ => "<class str>"
  | .bytes _ => "<class bytes>"
  | .noneV => "<class NoneType>"

/-- Model of `isinstance(v, int)`. -/
def pyIsInt : PyVal → Bool
  | .int _ => true
  | _ => false

/-! ## Module-level constants of `client.py` -/

def DEFAULT_ENCODING : String := "utf-8"

def KEY_ADDL : String := "Addldata"

def KEY_AGENT : String := "Agentname"

def KEY_ENDPOINT : String := "Endpoint"

/-- `MAX_PORT = (1 << 16) - 1` -/
def MAX_PORT : Int := 65535

/-- `MIN_PORT = 1` -/
def MIN_PORT : Int := 1

/-! ## Client objects and constructors -/

/-- Attribute state of a constructed client object. Python name-mangles
double-underscore attributes per defining class, so the `__srvport`
written by `RawdogClientTcp.__init__` (`_RawdogClientTcp__srvport`) and
the `__srvport` read by `RawdogClientBase.send`
(`_RawdogClientBase__srvport`) are distinct attributes; both are kept,
as `Option` since either may be unset. -/
structure ClientObj where
  agent_name : String
  srvaddr : String
  send_timeout : Int
  srvport_tcp : Option Int
  srvport_base : Option Int
deriving DecidableEq, Repr

/-- Model of `kwargs.get("send_timeout", 10)`: the optional keyword
argument with its default. -/
def kwargsGetTimeout (kw : Option PyVal) : PyVal :=
  kw.getD (.int 10)

/-- Model of `RawdogClientBase.__init__(server_addr, **kwargs)`:
validates `server_addr` is a `str` and `send_timeout` a positive `int`,
then sets `__agent_name = "client"`, `__srvaddr`, `__send_timeout`.
No `__srvport` attribute is ever assigned here. -/
def RawdogClientBase_init (server_addr : PyVal) (kw : Option PyVal) :
    Except PyErr ClientObj :=
  match server_addr with
  | .str a =>
    match kwargsGetTimeout kw with
    | .int t =>
      if t < 1 then .error (.valueError "send_timeout must be a positive int.")
      else .ok { agent_name := "client", srvaddr := a, send_timeout := t,
                 srvport_tcp := none, srvport_base := none }
    | v => .error (.typeError ("send_timeout must be an int. got " ++ pyTypeName v))
  | v => .error (.typeError ("server_addr must be a string. got " ++ pyTypeName v))

/-- Model of `RawdogClientTcp.__init__(server_addr, server_port, **kwargs)`.
Its first statement is `super().__init__(server_addr, server_port, **kwargs)`,
which passes `server_port` as a second positional argument to
`RawdogClientBase.__init__(self, server_addr, **kwargs)`; that signature
accepts only one positional argument, so the call raises `TypeError`
before the port checks below it can run. -/
def RawdogClientTcp_init (server_addr server_port : PyVal) (kw : Option PyVal) :
    Except PyErr ClientObj := do
  let base ← (.error (.typeError
      "RawdogClientBase.init takes 2 positional arguments but 3 were given") :
    Except PyErr ClientObj)
  -- the remaining statements of the source constructor, never reached:
  if pyIsInt server_port = false then
    .error (.typeError ("server_port must be an int. got " ++ pyTypeName server_port))
  else
    match server_port with
    | .int p =>
      if MIN_PORT ≤ p ∧ p ≤ MAX_PORT then
        .ok { base with srvport_tcp := some p }
      else
        .error (.valueError "server_port must be within range 1 - 65535")
    | _ => .error (.typeError ("server_port must be an int. got " ++ pyTypeName server_port))

/-- Model of `RawdogClientUnix.__init__(server_addr, **kwargs)`: it only
delegates to `RawdogClientBase.__init__` (correct arity this time). -/
def RawdogClientUnix_init (server_addr : PyVal) (kw : Option PyVal) :
    Except PyErr ClientObj :=
  RawdogClientBase_init server_addr kw

/-! ## `generic_md` (the spec's `BuildMetadata`) -/

/-- Model of `RawdogClientBase.generic_md(endpoint)`: the `isinstance`
check precedes every insertion; the raised `TypeError` is captured and
returned as the second tuple element next to the (still empty) dict. -/
def generic_md (self : ClientObj) (endpoint : PyVal) :
    List (String × JVal) × Option PyErr :=
  match endpoint with
  | .int e =>
    ([(KEY_AGENT, JVal.s self.agent_name), (KEY_ENDPOINT, JVal.i e), (KEY_ADDL, JVal.s "")],
      none)
  | v => ([], some (.typeError ("endpoint must be an int. got " ++ pyTypeName v)))

/-! ## Socket read model and the Decoder (`recv`) -/

/-- Inbound side of a connected socket: the byte chunks that successive
`socket.recv` calls will deliver. An exhausted chunk list models a
closed connection (`recv` then returns the empty byte string). A single
`recv(n)` call returns at most `n` bytes from the currently buffered
chunk; it does not wait for `n` bytes to accumulate. -/
structure Conn where
  chunks : List (List Nat)
deriving DecidableEq, Repr

/-- Model of one `conn.recv(n)` call: returns some non-empty prefix (up
to `n` bytes) of the buffered data, or the empty bytes object once the
connection is closed. -/
def recvBytes : Conn → Nat → List Nat × Conn
  | ⟨[]⟩, _ => ([], ⟨[]⟩)
  | ⟨chunk :: rest⟩, n =>
    if chunk.length ≤ n then (chunk.take n, ⟨rest⟩)
    else (chunk.take n, ⟨chunk.drop n :: rest⟩)

lemma recvBytes_cons (chunk : List Nat) (rest : List (List Nat)) (n : Nat) :
    recvBytes ⟨chunk :: rest⟩ n =
      if chunk.length ≤ n then (chunk.take n, ⟨rest⟩)
      else (chunk.take n, ⟨chunk.drop n :: rest⟩) := rfl

lemma recvBytes_fst (chunk : List Nat) (rest : List (List Nat)) (n : Nat) :
    (recvBytes ⟨chunk :: rest⟩ n).1 = chunk.take n := by
  rw [recvBytes_cons]
  split <;> rfl

/-- Model of `struct.unpack(SIZE_PACKET_FMT, size_packet)` with
`SIZE_PACKET_FMT = ">HQ"`: requires exactly 10 bytes, yields the
big-endian `uint16` and `uint64`; raises `struct.error` otherwise. -/
def unpackHQ (bs : List Nat) : Except PyErr (Nat × Nat) :=
  if bs.length = 10 then .ok (decodeBE (bs.take 2), decodeBE (bs.drop 2))
  else .error (.structError "unpack requires a buffer of 10 bytes")

/-- Dynamic type of the `metadata` local in `recv`: bytes from
`conn.recv` when `meta_size > 0`, the string `""` otherwise. (The
initial `dict()` is always overwritten.) `send` also funnels its `r_md`
result through this type, starting from the empty dict default. -/
inductive MdVal where
  | dict (d : List (String × JVal))
  | bytes (b : List Nat)
  | str (s : String)
deriving DecidableEq, Repr

/-- Steps 4-5 of `recv` (reading the metadata and data blocks once the
size header passed the empty-body check): each block is fetched by a
single `conn.recv(size)` call when its declared size is positive, with
`metadata = ""` and `data = bytes()` kept otherwise; the `err` local is
still `None` and is returned as-is. -/
def recvBlocks (conn1 : Conn) (meta_size data_size : Nat) :
    Except PyErr (MdVal × List Nat × Option PyErr) :=
  if 0 < meta_size then
    .ok (MdVal.bytes (recvBytes conn1 meta_size).1,
      (if 0 < data_size then (recvBytes (recvBytes conn1 meta_size).2 data_size).1 else []),
      none)
  else
    .ok (MdVal.str "",
      (if 0 < data_size then (recvBytes conn1 data_size).1 else []),
      none)

/-- Continuation of `recv` after `size_packet = conn.recv(10)`: unpack
the size header (raising `struct.error` on a short packet), raise
`ValueError("no data in the main body")` when both sizes are zero,
otherwise read the blocks. `r1` is the `conn.recv(10)` result. -/
def recvAfterSize (r1 : List Nat × Conn) :
    Except PyErr (MdVal × List Nat × Option PyErr) :=
  match unpackHQ r1.1 with
  | .error e => .error e
  | .ok (meta_size, data_size) =>
    if meta_size < 1 ∧ data_size < 1 then
      .error (.valueError "no data in the main body")
    else
      recvBlocks r1.2 meta_size data_size

/-- Model of `RawdogClientBase.recv(conn)`. The source has no
`try`/`except`: the `struct.error` from a short size packet and the
`ValueError` for an empty body both propagate to the caller (the
`Except.error` branch). A returned triple always carries `err = None`. -/
def recvModel (conn : Conn) : Except PyErr (MdVal × List Nat × Option PyErr) :=
  recvAfterSize (recvBytes conn 10)

/-! ## The Encoder (frame-building steps of `send`) -/

/-- Frame-building steps of `RawdogClientBase.send`: JSON-encode the
headers to UTF-8 bytes, base64-encode the message bytes, then
`struct.pack(f">HQ{meta_size}s{data_size}s", ...)` the size header and
the two blocks into one buffer. `struct.error` is raised when a size
exceeds its fixed-width field. -/
def frameOf (headers : List (String × JVal)) (msgBytes : List Nat) :
    Except PyErr (List Nat) :=
  let metadata := utf8Encode (jsonDumps headers)
  let message := b64encode msgBytes
  if 65536 ≤ metadata.length then
    .error (.structError "H format requires 0 <= number <= 65535")
  else if 2 ^ 64 ≤ message.length then
    .error (.structError "Q format requires 0 <= number <= 18446744073709551615")
  else
    .ok (packBE 2 metadata.length ++ packBE 8 message.length ++ metadata ++ message)

/-! ## Transport session (`send`) -/

/-- Dynamic type of the `headers` argument of `send`. -/
inductive PyHeaders where
  | dict (d : List (String × JVal))
  | other (tyName : String)
deriving DecidableEq, Repr

/-- Dynamic type of the `message` argument of `send`. -/
inductive PyMessage where
  | str (s : String)
  | bytes (b : List Nat)
  | other (tyName : String)
deriving DecidableEq, Repr

/-- Environment behaviour of one transport exchange: whether
`conn.connect` and `conn.sendall` raise, and the inbound byte stream the
server then provides. -/
structure NetBehavior where
  connectErr : Option PyErr
  sendErr : Option PyErr
  response : Conn
deriving DecidableEq, Repr

/-- Body of `send` after the argument checks, up to and including the
`conn.sendall(payload)` call: frame building, socket creation
(`AF_INET`, `SOCK_STREAM`), `settimeout`, the `self.__srvport`
attribute lookup (name-mangled to `_RawdogClientBase__srvport`, raising
`AttributeError` when unset), `connect`, and the full write. -/
def sendConnect (self : ClientObj) (net : NetBehavior) (hd : List (String × JVal))
    (msgBytes : List Nat) : Except PyErr (List Nat) :=
  match frameOf hd msgBytes with
  | .error e => .error e
  | .ok payload =>
    match self.srvport_base with
    | none => .error (.attributeError
        "RawdogClientBase object has no attribute _RawdogClientBase__srvport")
    | some _port =>
      match net.connectErr with
      | some e => .error e
      | none =>
        match net.sendErr with
        | some e => .error e
        | none => .ok payload

/-- Argument type checks opening the `try` body of
`RawdogClientBase.send`: `headers` must be a `dict`; a `str` message is
UTF-8 encoded, otherwise it must be `bytes`. -/
def sendPre (self : ClientObj) (net : NetBehavior) (headers : PyHeaders)
    (message : PyMessage) : Except PyErr (List Nat) :=
  match headers with
  | .other t => .error (.typeError ("headers must be a dict. got " ++ t))
  | .dict hd =>
    match message with
    | .other t => .error (.typeError ("message must be bytes. got " ++ t))
    | .str s => sendConnect self net hd (utf8Encode s)
    | .bytes b => sendConnect self net hd b

/-- Model of `RawdogClientBase.send(headers, message)`: the whole body
runs inside `try`/`except Exception`, with `r_md = dict()`,
`r_dat = bytes()`, `err = None` as defaults. After `self.recv` returns,
`if err: raise err` re-raises a returned error, which the same `except`
captures after `r_md`/`r_dat` were already assigned. The function
always returns a triple; it never raises. -/
def sendModel (self : ClientObj) (net : NetBehavior) (headers : PyHeaders)
    (message : PyMessage) : MdVal × List Nat × Option PyErr :=
  match sendPre self net headers message with
  | .error e => (.dict [], [], some e)
  | .ok _payload =>
    match recvModel net.response with
    | .error e => (.dict [], [], some e)
    | .ok (r_md, r_dat, err) =>
      match err with
      | some e => (r_md, r_dat, some e)
      | none => (r_md, r_dat, none)

/-! ## Helper lemmas -/

lemma pow_256_2 : (65536 : Nat) = 256 ^ 2 := by norm_num

lemma pow_256_8 : (2 : Nat) ^ 64 = 256 ^ 8 := by norm_num

/-- Unfolds a successful `frameOf` into the size bounds and the frame shape. -/
lemma frameOf_ok {hd : List (String × JVal)} {mb f : List Nat}
    (h : frameOf hd mb = .ok f) :
    (utf8Encode (jsonDumps hd)).length < 65536 ∧
      (b64encode mb).length < 2 ^ 64 ∧
      f = packBE 2 (utf8Encode (jsonDumps hd)).length ++
          packBE 8 (b64encode mb).length ++ utf8Encode (jsonDumps hd) ++ b64encode mb := by
  simp only [frameOf] at h
  split_ifs at h with ha hb
  simp only [Except.ok.injEq] at h
  exact ⟨by omega, by omega, h.symm⟩

/-- `recv` never returns a non-`None` error element: its `err` local is
initialized to `None` and never reassigned; failures are raised instead. -/
lemma recvBlocks_err_none {conn1 : Conn} {meta_size data_size : Nat} {md : MdVal}
    {dat : List Nat} {e : Option PyErr}
    (h : recvBlocks conn1 meta_size data_size = .ok (md, dat, e)) : e = none := by
  unfold recvBlocks at h
  split_ifs at h <;>
    (simp only [Except.ok.injEq, Prod.mk.injEq] at h; exact h.2.2.symm)

lemma recv_ok_err_none {conn : Conn} {md : MdVal} {dat : List Nat} {e : Option PyErr}
    (h : recvModel conn = .ok (md, dat, e)) : e = none := by
  unfold recvModel recvAfterSize at h
  rcases hu : unpackHQ (recvBytes conn 10).1 with he | ⟨m, d⟩ <;> rw [hu] at h <;>
    (try dsimp only at h)
  all_goals
    first
      | cases h
      | (split_ifs at h with hg
         exact recvBlocks_err_none h)

/-- Fields guaranteed by a successful `RawdogClientBase.__init__`. -/
lemma base_init_ok {server_addr : PyVal} {kw : Option PyVal} {c : ClientObj}
    (h : RawdogClientBase_init server_addr kw = .ok c) :
    c.agent_name = "client" ∧ c.srvport_tcp = none ∧ c.srvport_base = none := by
  unfold RawdogClientBase_init at h
  rcases server_addr with v | a | v | v <;> (try dsimp only at h)
  all_goals
    first
      | cases h
      | (rcases hkw : kwargsGetTimeout kw with t | v2 | v2 | v2 <;> rw [hkw] at h <;>
           (try dsimp only at h)
         all_goals
           first
             | cases h
             | (split_ifs at h with ht
                simp only [Except.ok.injEq] at h
                rw [← h]
                exact ⟨rfl, rfl, rfl⟩))

/-- Decoding a well-formed frame delivered as a single chunk: the header
declares the exact block lengths, so the two single `recv` calls return
the blocks whole. -/
lemma recvModel_one_chunk (meta dat : List Nat) (h1 : 1 ≤ meta.length)
    (h2 : meta.length < 65536) (h3 : dat.length < 2 ^ 64) :
    recvModel ⟨[packBE 2 meta.length ++ packBE 8 dat.length ++ meta ++ dat]⟩ =
      .ok (.bytes meta, dat, none) := by
  have hp2 : (packBE 2 meta.length).length = 2 := length_packBE _ _
  have hp8 : (packBE 8 dat.length).length = 8 := length_packBE _ _
  have hhdrlen : (packBE 2 meta.length ++ packBE 8 dat.length).length = 10 := by
    simp [hp2, hp8]
  have hassoc : packBE 2 meta.length ++ packBE 8 dat.length ++ meta ++ dat =
      (packBE 2 meta.length ++ packBE 8 dat.length) ++ (meta ++ dat) := by
    simp [List.append_assoc]
  have hchunklen : (packBE 2 meta.length ++ packBE 8 dat.length ++ meta ++ dat).length =
      10 + meta.length + dat.length := by
    simp [hp2, hp8]
    omega
  have e1 : recvBytes ⟨[packBE 2 meta.length ++ packBE 8 dat.length ++ meta ++ dat]⟩ 10 =
      (packBE 2 meta.length ++ packBE 8 dat.length, ⟨[meta ++ dat]⟩) := by
    rw [recvBytes_cons, if_neg (by rw [hchunklen]; omega)]
    rw [hassoc, take_len_append _ _ 10 hhdrlen, drop_len_append _ _ 10 hhdrlen]
  have e2 : unpackHQ (packBE 2 meta.length ++ packBE 8 dat.length) =
      .ok (meta.length, dat.length) := by
    rw [unpackHQ, if_pos hhdrlen]
    rw [take_len_append _ _ 2 hp2, drop_len_append _ _ 2 hp2]
    rw [decodeBE_packBE_of_lt (by rw [← pow_256_2]; exact h2),
      decodeBE_packBE_of_lt (by rw [← pow_256_8]; exact h3)]
  have e3 : recvBytes ⟨[meta ++ dat]⟩ meta.length =
      (meta, ⟨if dat = [] then [] else [dat]⟩) := by
    rw [recvBytes_cons]
    rcases eq_or_ne dat ([] : List Nat) with hd | hd
    · subst hd
      rw [if_pos (by simp), if_pos rfl]
      simp
    · have hdlen : 0 < dat.length := List.length_pos.mpr hd
      rw [if_neg (by simp only [List.length_append]; omega), if_neg hd]
      rw [take_len_append _ _ _ rfl, drop_len_append _ _ _ rfl]
  unfold recvModel recvAfterSize recvBlocks
  rw [e1]
  simp only [e2]
  rw [if_neg (by omega), if_pos (by omega)]
  simp only [e3]
  rcases eq_or_ne dat ([] : List Nat) with hd | hd
  · subst hd
    rw [if_neg (by simp)]
  · have hdlen : 0 < dat.length := List.length_pos.mpr hd
    rw [if_pos hdlen, if_neg hd]
    have e4 : recvBytes ⟨[dat]⟩ dat.length = (dat, ⟨[]⟩) := by
      rw [recvBytes_cons, if_pos le_rfl]
      simp
    simp [e4]

/-- Helper for C7: when `frameOf` succeeds but the object lacks the
`_RawdogClientBase__srvport` attribute, the transport step stops at the
attribute lookup inside `conn.connect((self.__srvaddr, self.__srvport))`. -/
lemma sendConnect_no_port (self : ClientObj) (net : NetBehavior)
    (hd : List (String × JVal)) (mb payload : List Nat)
    (hf : frameOf hd mb = .ok payload) (hport : self.srvport_base = none) :
    sendConnect self net hd mb =
      .error (.attributeError
        "RawdogClientBase object has no attribute _RawdogClientBase__srvport") := by
  unfold sendConnect
  rw [hf, hport]

/-! ## Claim theorems -/

/-- C1. Round-trip framing: building a frame from a metadata mapping `M`
and a non-empty payload `P` via the frame-building steps of `send`, then
decoding that frame buffer through the read procedure of `recv`, yields
raw metadata bytes equal to the UTF-8 JSON encoding of `M` and raw data
bytes equal to the standard base64 encoding of `P`; neither transform is
reversed on the receive path. -/
theorem C1_roundtrip_framing (M : List (String × JVal)) (P f : List Nat)
    (hP : P ≠ []) (hf : frameOf M P = .ok f) :
    recvModel ⟨[f]⟩ = .ok (.bytes (utf8Encode (jsonDumps M)), b64encode P, none) := by
  obtain ⟨h2, h3, hshape⟩ := frameOf_ok hf
  subst hshape
  exact recvModel_one_chunk _ _ (one_le_length_utf8_jsonDumps M) h2 h3

/-- Witness for C1 at `M = {}` and `P = b"hi"`. -/
theorem C1_roundtrip_framing_witness :
    ([104, 105] : List Nat) ≠ [] ∧
      frameOf [] [104, 105] =
        .ok [0, 2, 0, 0, 0, 0, 0, 0, 0, 4, 123, 125, 97, 71, 107, 61] ∧
      recvModel ⟨[[0, 2, 0, 0, 0, 0, 0, 0, 0, 4, 123, 125, 97, 71, 107, 61]]⟩ =
        .ok (.bytes (utf8Encode (jsonDumps [])), b64encode [104, 105], none) :=
  ⟨by decide, rfl, C1_roundtrip_framing [] [104, 105] _ (by decide) rfl⟩

/-- C2. Size-header accuracy and frame layout: in every frame the Encoder
produces, the first 2 bytes read as big-endian `uint16` equal the
metadata block length, the next 8 bytes read as big-endian `uint64`
equal the payload block length, the remainder is the metadata block
immediately followed by the payload block, and the total length is
`10 + metaSize + dataSize`. -/
theorem C2_frame_layout (hd : List (String × JVal)) (mb f : List Nat)
    (hf : frameOf hd mb = .ok f) :
    decodeBE (f.take 2) = (utf8Encode (jsonDumps hd)).length ∧
      decodeBE ((f.drop 2).take 8) = (b64encode mb).length ∧
      f.drop 10 = utf8Encode (jsonDumps hd) ++ b64encode mb ∧
      f.length = 10 + (utf8Encode (jsonDumps hd)).length + (b64encode mb).length := by
  obtain ⟨h2, h3, hshape⟩ := frameOf_ok hf
  subst hshape
  set meta := utf8Encode (jsonDumps hd) with hmeta
  set dat := b64encode mb with hdat
  have hp2 : (packBE 2 meta.length).length = 2 := length_packBE _ _
  have hp8 : (packBE 8 dat.length).length = 8 := length_packBE _ _
  have hassoc1 : packBE 2 meta.length ++ packBE 8 dat.length ++ meta ++ dat =
      packBE 2 meta.length ++ (packBE 8 dat.length ++ (meta ++ dat)) := by
    simp [List.append_assoc]
  have hassoc2 : packBE 2 meta.length ++ packBE 8 dat.length ++ meta ++ dat =
      (packBE 2 meta.length ++ packBE 8 dat.length) ++ (meta ++ dat) := by
    simp [List.append_assoc]
  refine ⟨?_, ?_, ?_, ?_⟩
  · rw [hassoc1, take_len_append _ _ 2 hp2,
      decodeBE_packBE_of_lt (by rw [← pow_256_2]; exact h2)]
  · rw [hassoc1, drop_len_append _ _ 2 hp2, take_len_append _ _ 8 hp8,
      decodeBE_packBE_of_lt (by rw [← pow_256_8]; exact h3)]
  · rw [hassoc2, drop_len_append _ _ 10 (by simp [hp2, hp8])]
  · simp only [List.length_append, hp2, hp8]
    try omega

/-- Witness for C2 at `headers = {}` and message bytes `b"hi"`. -/
theorem C2_frame_layout_witness :
    frameOf [] [104, 105] =
        .ok [0, 2, 0, 0, 0, 0, 0, 0, 0, 4, 123, 125, 97, 71, 107, 61] ∧
      decodeBE (([0, 2, 0, 0, 0, 0, 0, 0, 0, 4, 123, 125, 97, 71, 107, 61] : List Nat).take 2) =
        (utf8Encode (jsonDumps [])).length :=
  ⟨rfl, (C2_frame_layout [] [104, 105] _ rfl).1⟩

/-- C3. Captured-error contract of `send`: for every client state, every
behaviour of the underlying connection and every argument pair, `send`
returns a triple (it is a total function of the model, never an
exception), and whenever the error element is non-empty the metadata and
data elements are the empty-dict and empty-bytes defaults. -/
theorem C3_send_error_contract (self : ClientObj) (net : NetBehavior)
    (headers : PyHeaders) (message : PyMessage)
    (h : (sendModel self net headers message).2.2 ≠ none) :
    (sendModel self net headers message).1 = .dict [] ∧
      (sendModel self net headers message).2.1 = [] := by
  unfold sendModel at h ⊢
  rcases hp : sendPre self net headers message with e | payload <;> rw [hp] at h
  · exact ⟨rfl, rfl⟩
  · rcases hr : recvModel net.response with e2 | ⟨r_md, r_dat, err⟩ <;> rw [hr] at h
    · exact ⟨rfl, rfl⟩
    · have herr := recv_ok_err_none hr
      subst herr
      exact absurd rfl h

/-- Witness for C3: a non-dict `headers` argument makes `send` return
its defaults next to the captured `TypeError`. -/
theorem C3_send_error_contract_witness :
    (sendModel ⟨"client", "h", 10, none, none⟩ ⟨none, none, ⟨[]⟩⟩
        (.other "str") (.bytes [])).2.2 ≠ none ∧
      (sendModel ⟨"client", "h", 10, none, none⟩ ⟨none, none, ⟨[]⟩⟩
          (.other "str") (.bytes [])).1 = .dict [] ∧
      (sendModel ⟨"client", "h", 10, none, none⟩ ⟨none, none, ⟨[]⟩⟩
          (.other "str") (.bytes [])).2.1 = [] :=
  ⟨by decide, C3_send_error_contract _ _ _ _ (by decide)⟩

/-- C4 counterexample: `recv` on an immediately-closed connection does
not return its failure inside the result tuple - the `struct.error`
raised by unpacking the short size packet propagates to the caller
(the `Except.error` branch of the model), because `recv` has no
`try`/`except`. -/
theorem C4_recv_counterexample :
    recvModel ⟨[]⟩ = .error (.structError "unpack requires a buffer of 10 bytes") := rfl

/-- C4 (amended). `recv` returns a `(metadata, data, error)` triple only
when no failure occurs, and then its error element is always `None`;
failures (short size header, empty body) are instead raised as
exceptions that propagate to the caller, where `send`'s handler captures
them. -/
theorem C4_recv_amended (conn : Conn) (md : MdVal) (dat : List Nat) (e : Option PyErr)
    (h : recvModel conn = .ok (md, dat, e)) : e = none :=
  recv_ok_err_none h

/-- Witness for the amended C4 on a well-formed single-chunk stream. -/
theorem C4_recv_amended_witness :
    recvModel ⟨[[0, 1, 0, 0, 0, 0, 0, 0, 0, 1, 65, 66]]⟩ =
      .ok (.bytes [65], [66], none) ∧ (none : Option PyErr) = none :=
  ⟨rfl, C4_recv_amended ⟨[[0, 1, 0, 0, 0, 0, 0, 0, 0, 1, 65, 66]]⟩ (.bytes [65]) [66] none rfl⟩

/-- C5. Code-bug evidence: constructing a TCP client raises `TypeError`
for every port, including the valid ports 1 and 65535 the claim says
succeed, because `RawdogClientTcp.__init__` passes `server_port` as an
extra positional argument to `RawdogClientBase.__init__`; the port-range
validation below that call never runs. -/
theorem C5_tcp_init_always_type_error :
    RawdogClientTcp_init (.str "localhost") (.int 1) none =
        .error (.typeError
          "RawdogClientBase.init takes 2 positional arguments but 3 were given") ∧
      RawdogClientTcp_init (.str "localhost") (.int 65535) none =
        .error (.typeError
          "RawdogClientBase.init takes 2 positional arguments but 3 were given") ∧
      RawdogClientTcp_init (.str "localhost") (.int 0) none =
        .error (.typeError
          "RawdogClientBase.init takes 2 positional arguments but 3 were given") :=
  ⟨rfl, rfl, rfl⟩

/-- C6. Empty-body rejection: whenever the 10-byte size header decodes to
`metaSize = 0` and `dataSize = 0`, decoding fails with the empty-body
error (`ValueError("no data in the main body")` in the source),
regardless of any bytes that follow the header in the stream. -/
theorem C6_empty_body (header rest : List Nat) (more : List (List Nat))
    (hlen : header.length = 10)
    (hm : decodeBE (header.take 2) = 0) (hd : decodeBE (header.drop 2) = 0) :
    recvModel ⟨(header ++ rest) :: more⟩ =
      .error (.valueError "no data in the main body") := by
  have e1 : (recvBytes ⟨(header ++ rest) :: more⟩ 10).1 = header := by
    rw [recvBytes_fst, take_len_append _ _ 10 hlen]
  unfold recvModel recvAfterSize unpackHQ
  rw [e1, if_pos hlen, hm, hd]
  exact rfl

/-- Witness for C6: an all-zero header followed by stray bytes. -/
theorem C6_empty_body_witness :
    (List.replicate 10 0 : List Nat).length = 10 ∧
      decodeBE ((List.replicate 10 0 : List Nat).take 2) = 0 ∧
      decodeBE ((List.replicate 10 0 : List Nat).drop 2) = 0 ∧
      recvModel ⟨(List.replicate 10 0 ++ [7, 7, 7]) :: [[9]]⟩ =
        .error (.valueError "no data in the main body") :=
  ⟨by decide, by decide, by decide,
    C6_empty_body (List.replicate 10 0) [7, 7, 7] [[9]] (by decide) (by decide) (by decide)⟩

/-- C7. Code-bug evidence: `send` on a constructed Unix-socket client
never performs a Unix-domain connect to the socket path; the inherited
transport step builds an `AF_INET` socket and reads the never-assigned
`_RawdogClientBase__srvport` attribute, so every `send` returns an
`AttributeError` as its captured error. -/
theorem C7_unix_send_attribute_error (addr : PyVal) (kw : Option PyVal)
    (c : ClientObj) (net : NetBehavior)
    (h : RawdogClientUnix_init addr kw = .ok c) :
    sendModel c net (.dict []) (.bytes [104, 105]) =
      (.dict [], [],
        some (.attributeError
          "RawdogClientBase object has no attribute _RawdogClientBase__srvport")) := by
  have h2 : RawdogClientBase_init addr kw = .ok c := h
  obtain ⟨-, -, hport⟩ := base_init_ok h2
  have hsc : sendPre c net (.dict []) (.bytes [104, 105]) =
      .error (.attributeError
        "RawdogClientBase object has no attribute _RawdogClientBase__srvport") := by
    show sendConnect c net [] [104, 105] = _
    exact sendConnect_no_port c net [] [104, 105] _ rfl hport
  unfold sendModel
  rw [hsc]

/-- Witness for C7 on a concretely constructed Unix-socket client. -/
theorem C7_unix_send_attribute_error_witness :
    RawdogClientUnix_init (.str "/tmp/app.sock") none =
        .ok ⟨"client", "/tmp/app.sock", 10, none, none⟩ ∧
      sendModel ⟨"client", "/tmp/app.sock", 10, none, none⟩ ⟨none, none, ⟨[]⟩⟩
          (.dict []) (.bytes [104, 105]) =
        (.dict [], [],
          some (.attributeError
            "RawdogClientBase object has no attribute _RawdogClientBase__srvport")) :=
  ⟨rfl, C7_unix_send_attribute_error (.str "/tmp/app.sock") none _ ⟨none, none, ⟨[]⟩⟩ rfl⟩

/-- C8. Code-bug evidence against the exact-read claim: (1) a stream
whose header declares `metaSize = 2, dataSize = 1` but closes after the
header makes `recv` return success with empty blocks and `err = None`
instead of failing with a short-read error; (2) a header delivered as
two 5-byte chunks makes the single `conn.recv(10)` call return 5 bytes
and `struct.unpack` raise, even though all 10 bytes are eventually
received. -/
theorem C8_short_read_behaviour :
    recvModel ⟨[[0, 2, 0, 0, 0, 0, 0, 0, 0, 1]]⟩ = .ok (.bytes [], [], none) ∧
      recvModel ⟨[[0, 2, 0, 0, 0], [0, 0, 0, 0, 1]]⟩ =
        .error (.structError "unpack requires a buffer of 10 bytes") :=
  ⟨rfl, rfl⟩

/-- C9. `BuildMetadata` (`generic_md`): on every constructed client and
integer endpoint `e` it returns the mapping `Agentname = "client"`,
`Endpoint = e`, `Addldata = ""` in that key order with no error; on a
non-integer endpoint it returns the `TypeError` (the spec's
`ValidationError`) as the error element of the pair. -/
theorem C9_build_metadata (addr : PyVal) (kw : Option PyVal) (c : ClientObj)
    (h : RawdogClientBase_init addr kw = .ok c) :
    (∀ e : Int, generic_md c (.int e) =
        ([(KEY_AGENT, JVal.s "client"), (KEY_ENDPOINT, JVal.i e), (KEY_ADDL, JVal.s "")],
          none)) ∧
      (∀ v : PyVal, pyIsInt v = false →
        generic_md c v =
          ([], some (.typeError ("endpoint must be an int. got " ++ pyTypeName v)))) := by
  obtain ⟨hagent, -, -⟩ := base_init_ok h
  constructor
  · intro e
    simp [generic_md, hagent]
  · intro v hv
    cases v <;> simp_all [generic_md, pyIsInt]

/-- Witness for C9: `BuildMetadata(endpoint=7)` on a fresh client. -/
theorem C9_build_metadata_witness :
    RawdogClientBase_init (.str "srv") none = .ok ⟨"client", "srv", 10, none, none⟩ ∧
      generic_md ⟨"client", "srv", 10, none, none⟩ (.int 7) =
        ([(KEY_AGENT, JVal.s "client"), (KEY_ENDPOINT, JVal.i 7), (KEY_ADDL, JVal.s "")],
          none) :=
  ⟨rfl, (C9_build_metadata (.str "srv") none _ rfl).1 7⟩

/-- C10. On the failure path of `generic_md` (non-integer endpoint) the
returned metadata mapping is completely empty: the type check precedes
every insertion, so no partial subset of the reserved keys appears. -/
theorem C10_failure_metadata_empty (c : ClientObj) (v : PyVal)
    (h : pyIsInt v = false) : (generic_md c v).1 = [] := by
  cases v <;> simp_all [generic_md, pyIsInt]

/-- Witness for C10 at a string-typed endpoint. -/
theorem C10_failure_metadata_empty_witness :
    pyIsInt (.str "x") = false ∧
      (generic_md ⟨"client", "srv2", 10, none, none⟩ (.str "x")).1 = [] :=
  ⟨rfl, C10_failure_metadata_empty ⟨"client", "srv2", 10, none, none⟩ (.str "x") rfl⟩

end Rawdog
